import Mathlib

/-!
A verification development for the BK108X broadcast-receiver driver
(PU2CLR BK108X Arduino library).  The register bank, the band/spacing
tables and the typed bit-field register views are embedded from
`src/BK108X.h`.  Operations whose bodies live in the (absent) `.cpp`
translation unit are modelled from the specification and are marked
as such in their doc comments.  Machine integers are modelled as `Nat`
with explicit `% 2 ^ w` where a width conversion happens in the source.
-/

/-! ## Register view field widths (from the bit-field unions in BK108X.h) -/

/-- Declared bit widths of `bk_reg00.refined` (lowByte, highByte). -/
def bk_reg00_widths : List Nat := [8, 8]

/-- Declared bit widths of `bk_reg01.refined` (lowByte, highByte). -/
def bk_reg01_widths : List Nat := [8, 8]

/-- Declared bit widths of `bk_reg02.refined`:
ENABLE, SNR_REF, DISABLE, SKAFCRL, SEEK, SEEKUP, SKMODE, STEREO, MONO,
MUTER, MUTEL, DSMUTE. -/
def bk_reg02_widths : List Nat := [1, 5, 1, 1, 1, 1, 1, 1, 1, 1, 1, 1]

/-- Declared bit widths of `bk_reg03.refined`: CHAN, TUNE. -/
def bk_reg03_widths : List Nat := [15, 1]

/-- Declared bit widths of `bk_reg04.refined`:
GPIO1, GPIO2, GPIO3, BLNDADJ, TCPILOT, AGCD, DE, RDSEN, AFCINV, STCIEN,
RDSIEN. -/
def bk_reg04_widths : List Nat := [2, 2, 2, 3, 2, 1, 1, 1, 1, 1, 1]

/-- Declared bit widths of `bk_reg05.refined`: VOLUME, SPACE, BAND, SEEKTH. -/
def bk_reg05_widths : List Nat := [5, 2, 2, 7]

/-- Declared bit widths of `bk_reg06.refined`:
SKCNT, SKSNR, CLKSEL, SMUTEA, SMUTER. -/
def bk_reg06_widths : List Nat := [4, 7, 1, 2, 2]

/-- Declared bit widths of `bk_reg07.refined`:
FMGAIN, STGAIN, IMPTH, BPDE, IMPEN, SIQ, MODE, RESERVED. -/
def bk_reg07_widths : List Nat := [3, 5, 2, 1, 1, 1, 1, 2]

/-- Declared bit widths of `bk_reg08.refined` (lowByte, highByte). -/
def bk_reg08_widths : List Nat := [8, 8]

/-- Declared bit widths of `bk_reg09.refined` (lowByte, highByte). -/
def bk_reg09_widths : List Nat := [8, 8]

/-- Declared bit widths of `bk_reg0a.refined`:
RSSI, ST, BLERA, RDSS, AFCRL, SF_BL, STC, RDSR. -/
def bk_reg0a_widths : List Nat := [8, 1, 2, 1, 1, 1, 1, 1]

/-- Declared bit widths of `bk_reg0b.refined`:
READCHAN, BLERD, BLERC, BLERB. -/
def bk_reg0b_widths : List Nat := [10, 2, 2, 2]

/-- Declared bit widths of `bk_rds_blockb.group0`:
address, DI, MS, TA, programType, trafficProgramCode, versionCode,
groupType. -/
def bk_rds_blockb_group0_widths : List Nat := [2, 1, 1, 1, 5, 1, 1, 4]

/-- Declared bit widths of `bk_rds_blockb.group2`:
address, textABFlag, programType, trafficProgramCode, versionCode,
groupType. -/
def bk_rds_blockb_group2_widths : List Nat := [4, 1, 5, 1, 1, 4]

/-- Declared bit widths of `bk_rds_blockb.refined`:
content, textABFlag, programType, trafficProgramCode, versionCode,
groupType. -/
def bk_rds_blockb_refined_widths : List Nat := [4, 1, 5, 1, 1, 4]

/-- The bit intervals (offset, width) obtained by allocating the declared
fields sequentially from bit 0, as C bit-field allocation does inside one
storage unit. -/
def intervalsOf (ws : List Nat) : List (Nat × Nat) :=
  ((ws.scanl (· + ·) 0).zip ws)

/-- Two (offset, width) bit intervals are disjoint. -/
def disjointB (a b : Nat × Nat) : Bool :=
  a.1 + a.2 ≤ b.1 || b.1 + b.2 ≤ a.1

/-- All intervals in the list are pairwise disjoint. -/
def allDisjointB : List (Nat × Nat) → Bool
  | [] => true
  | x :: xs => xs.all (disjointB x) && allDisjointB xs

/-! ## The shadow register bank (class BK108X, private/protected state) -/

/-- `MAX_DELAY_AFTER_OSCILLATOR` from BK108X.h line 18. -/
def MAX_DELAY_AFTER_OSCILLATOR : Nat := 500

/-- Error kinds named by the specification for fallible operations. -/
inductive BkError where
  | InvalidRegister : BkError
  | OutOfBandRange : BkError
deriving DecidableEq, Repr

/-- The state of a BK108X session that the verified operations touch:
the shadow register bank (`uint16_t shadowRegisters[17]`) and the
post-reset stabilization delay (`uint16_t maxDelayAftarCrystalOn`).
`shadowRegisters` is indexed by an unbounded offset because the source
getter performs an unchecked read at any caller-supplied index: offsets
0–16 are the 17 declared array words, and higher offsets stand for the
16-bit values an out-of-bounds read past the array would reach in the
surrounding object — values the program never specifies. -/
structure BK108X where
  shadowRegisters : Nat → Nat
  maxDelayAftarCrystalOn : Nat

/-- A session whose shadow bank is all zeros and whose delay holds its
default value `MAX_DELAY_AFTER_OSCILLATOR`. -/
def bank0 : BK108X :=
  { shadowRegisters := fun _ => 0
    maxDelayAftarCrystalOn := MAX_DELAY_AFTER_OSCILLATOR }

/-- `BK108X::setShadownRegister` (BK108X.h lines 557–562): refuses any
index above 0x0F, otherwise stores the 16-bit value at that index. -/
def setShadownRegister (st : BK108X) (register_number value : Nat) : BK108X :=
  if register_number > 0x0F then st
  else
    { st with
      shadowRegisters := fun j =>
        if j = register_number then value % 65536
        else st.shadowRegisters j }

/-- `BK108X::getShadownRegister` (BK108X.h line 547): the unchecked
one-line array read `return shadowRegisters[register_number]`.  There is
no bounds check and no error mechanism: every index, in range or not,
yields the 16-bit value at that offset of the object memory. -/
def getShadownRegister (st : BK108X) (register_number : Nat) : Nat :=
  st.shadowRegisters register_number

/-- `BK108X::setDelayAfterCrystalOn` (BK108X.h line 533): the parameter
is `uint8_t`, so the caller-supplied millisecond count is truncated to
8 bits before being stored in the 16-bit field. -/
def setDelayAfterCrystalOn (st : BK108X) (ms_value : Nat) : BK108X :=
  { st with maxDelayAftarCrystalOn := ms_value % 256 }

/-! ## Theorems -/

/-- C1: the typed register views declare field widths that are supposed to
sum to exactly 16 bits per view with no two fields overlapping.  Sequential
allocation indeed never makes two fields of one view overlap, and every
cited view except one sums to 16 — but the `bk_reg04` view declares
2+2+2+3+2+1+1+1+1+1+1 = 17 bits, one more than the 16-bit `raw` word it
overlays, contradicting the 16-bit register it models. -/
theorem C1_field_widths :
    bk_reg00_widths.sum = 16 ∧ bk_reg01_widths.sum = 16 ∧
    bk_reg02_widths.sum = 16 ∧ bk_reg03_widths.sum = 16 ∧
    bk_reg04_widths.sum = 17 ∧ bk_reg04_widths.sum ≠ 16 ∧
    bk_reg05_widths.sum = 16 ∧ bk_reg06_widths.sum = 16 ∧
    bk_reg07_widths.sum = 16 ∧ bk_reg08_widths.sum = 16 ∧
    bk_reg09_widths.sum = 16 ∧ bk_reg0a_widths.sum = 16 ∧
    bk_reg0b_widths.sum = 16 ∧
    bk_rds_blockb_group0_widths.sum = 16 ∧
    bk_rds_blockb_group2_widths.sum = 16 ∧
    bk_rds_blockb_refined_widths.sum = 16 ∧
    allDisjointB (intervalsOf bk_reg02_widths) = true ∧
    allDisjointB (intervalsOf bk_reg04_widths) = true ∧
    allDisjointB (intervalsOf bk_rds_blockb_group0_widths) = true ∧
    allDisjointB (intervalsOf bk_rds_blockb_group2_widths) = true ∧
    allDisjointB (intervalsOf bk_rds_blockb_refined_widths) = true := by
  decide

/-- C2 (amended): writing a 16-bit value to a shadow register with index
in 0x00–0x0F and reading it back returns the written value.  Index 0x10,
although part of the 17-word bank, is refused by the setter guard
`register_number > 0x0F`. -/
theorem C2_shadow_roundtrip (st : BK108X) (i v : Nat)
    (hi : i ≤ 0x0F) (hv : v < 65536) :
    getShadownRegister (setShadownRegister st i v) i = v := by
  unfold setShadownRegister getShadownRegister
  rw [if_neg (by omega)]
  simp [Nat.mod_eq_of_lt hv]

/-- C2 witness: round trip at register 3 with value 0xABCD. -/
theorem C2_shadow_roundtrip_witness :
    getShadownRegister (setShadownRegister bank0 3 43981) 3 = 43981 :=
  C2_shadow_roundtrip bank0 3 43981 (by decide) (by decide)

/-- C2 counterexample: at register index 0x10 — inside the claimed range
0x00–0x10 — writing 1 and reading back yields the old value 0, because
`setShadownRegister` refuses every index above 0x0F. -/
theorem C2_counterexample :
    getShadownRegister (setShadownRegister bank0 0x10 1) 0x10 = 0 ∧
    (0 : Nat) ≠ 1 :=
  ⟨rfl, by decide⟩

/-- C3: the write half of the claim holds — a write with register index
outside 0x00–0x10 leaves the bank unchanged, thanks to the setter guard
`register_number > 0x0F`.  The read half fails on the code: the getter
is the unchecked one-line array read with no error mechanism, so for an
index outside 0x00–0x10 it still returns the 16-bit value at that offset
of the object memory (garbage past the array), and signals no
`InvalidRegister` error — the missing read-side guard that the setter
does have is a slip in the code. -/
theorem C3_unchecked_read (st : BK108X) (i v : Nat) (h : 0x10 < i) :
    setShadownRegister st i v = st ∧
    getShadownRegister st i = st.shadowRegisters i := by
  constructor
  · unfold setShadownRegister
    rw [if_pos (by omega)]
  · rfl

/-- C3 witness: at index 0x11 the write is a no-op, and the read returns
the 16-bit value sitting at offset 17 of the object memory — a value,
not an error. -/
theorem C3_unchecked_read_witness :
    setShadownRegister bank0 17 5 = bank0 ∧
    getShadownRegister bank0 17 = bank0.shadowRegisters 17 :=
  C3_unchecked_read bank0 17 5 (by decide)

/-- C10: `setDelayAfterCrystalOn` truncates the requested delay to 8 bits
(`uint8_t` parameter), so the stored delay is the request mod 256 and can
never exceed 255 ms, although the field defaults to
`MAX_DELAY_AFTER_OSCILLATOR` = 500 ms. -/
theorem C10_delay_truncation (st : BK108X) (d : Nat) :
    (setDelayAfterCrystalOn st d).maxDelayAftarCrystalOn = d % 256 ∧
    (setDelayAfterCrystalOn st d).maxDelayAftarCrystalOn ≤ 255 ∧
    MAX_DELAY_AFTER_OSCILLATOR = 500 ∧
    bank0.maxDelayAftarCrystalOn = 500 := by
  refine ⟨rfl, ?_, rfl, rfl⟩
  have hlt : d % 256 < 256 := Nat.mod_lt d (by decide)
  simp only [setDelayAfterCrystalOn]
  omega

/-! ## Band and spacing tables (BK108X.h lines 491–493)

The driver stores frequencies as `uint16_t` in units of 10 kHz:
`startBand[0] = 8750` is 87.5 MHz. -/

/-- `uint16_t startBand[4] = {8750, 7600, 7600, 6400}` — FM band start
limits, in 10-kHz units, indexed by the 2-bit band selector. -/
def startBand : List Nat := [8750, 7600, 7600, 6400]

/-- `uint16_t endBand[4] = {10800, 10800, 9000, 10800}` — FM band end
limits, in 10-kHz units, indexed by the 2-bit band selector. -/
def endBand : List Nat := [10800, 10800, 9000, 10800]

/-- `uint16_t fmSpace[4] = {20, 10, 5, 1}` — FM channel spacing table, in
10-kHz units, indexed by the 2-bit SPACE selector. -/
def fmSpace : List Nat := [20, 10, 5, 1]

/-- Band start looked up by selector, as the source indexes `startBand`. -/
def startBandAt (b : Fin 4) : Nat := startBand.getD b.val 0

/-- Band end looked up by selector, as the source indexes `endBand`. -/
def endBandAt (b : Fin 4) : Nat := endBand.getD b.val 0

/-- Channel spacing looked up by selector, as the source indexes
`fmSpace`. -/
def fmSpaceAt (s : Fin 4) : Nat := fmSpace.getD s.val 0

/-- Channel spacing converted to kHz (the table is in 10-kHz units). -/
def fmSpaceKHz (s : Fin 4) : Nat := fmSpaceAt s * 10

/-- Band start converted to kHz. -/
def startBandKHz (b : Fin 4) : Nat := startBandAt b * 10

/-- Band end converted to kHz. -/
def endBandKHz (b : Fin 4) : Nat := endBandAt b * 10

/-- Every spacing table entry is positive. -/
theorem fmSpaceAt_pos (s : Fin 4) : 0 < fmSpaceAt s := by
  fin_cases s <;> decide

/-- Modelled from the spec: `frequencyToChannel` — the body of
`BK108X::setFrequency` is in the `.cpp` translation unit, which is not
under `src/`; the header documents the relation as
`tuned Frequency = Band + CHAN * SPACE` (BK108X.h line 123), so the
channel for a frequency is `(f - start[band]) / space`.  Frequencies are
in the 10-kHz units of the tables above. -/
def frequencyToChannel (f : Nat) (b s : Fin 4) : Nat :=
  (f - startBandAt b) / fmSpaceAt s

/-- Modelled from the spec: `channelToFrequency` — inverse direction of
the relation `tuned Frequency = Band + CHAN * SPACE` (BK108X.h line 123);
the body computing it (`getRealFrequency`) is in the absent `.cpp`. -/
def channelToFrequency (c : Nat) (b s : Fin 4) : Nat :=
  startBandAt b + c * fmSpaceAt s

/-- Modelled from the spec: a successful tune — the body of
`BK108X::setFrequency` is not under `src/`.  Per the specification the
requested frequency is rejected with `OutOfBandRange` outside
`[start[band], end[band]]`; otherwise the channel field is set to
`frequencyToChannel` and the current frequency is the derived value
`start[band] + channel * space`. -/
def setFrequencyModel (b s : Fin 4) (f : Nat) : Except BkError Nat :=
  if f < startBandAt b ∨ endBandAt b < f then Except.error BkError.OutOfBandRange
  else Except.ok (startBandAt b + frequencyToChannel f b s * fmSpaceAt s)

/-- C4: the claim states that SPACE selector values 0, 1, 2, 3 yield
spacings of 10, 50, 100 and 200 kHz, matching the SPACE table documented
in BK108X.h (lines 186–191).  The `fmSpace` array `{20, 10, 5, 1}` (in
10-kHz units) is in exactly the reverse order: selector 0 yields 200 kHz
and selector 3 yields 10 kHz, contradicting the documented encoding. -/
theorem C4_fmSpace_reversed :
    fmSpaceKHz 0 = 200 ∧ fmSpaceKHz 1 = 100 ∧
    fmSpaceKHz 2 = 50 ∧ fmSpaceKHz 3 = 10 ∧
    fmSpaceKHz 0 ≠ 10 := by
  decide

/-- C5: for a frequency lying exactly on a channel boundary of the band
(`f = start[b] + c * space` with `f` within the band), converting to a
channel and back returns the same frequency. -/
theorem C5_channel_roundtrip (b s : Fin 4) (c f : Nat)
    (hf : f = startBandAt b + c * fmSpaceAt s) (hend : f ≤ endBandAt b) :
    channelToFrequency (frequencyToChannel f b s) b s = f := by
  subst hf
  unfold channelToFrequency frequencyToChannel
  rw [Nat.add_sub_cancel_left, Nat.mul_div_cancel c (fmSpaceAt_pos s)]

/-- C5 witness: band 0, spacing 0, channel 3 — the boundary frequency
8810 (88.1 MHz) survives the round trip. -/
theorem C5_channel_roundtrip_witness :
    channelToFrequency (frequencyToChannel 8810 0 0) 0 0 = 8810 :=
  C5_channel_roundtrip 0 0 3 8810 (by decide) (by decide)

/-- C6: after any successful tune, the derived current frequency lies
within `[start[band], end[band]]` (equivalently in kHz between the table
entries scaled to kHz) and the channel it encodes is exact: the offset
from the band start is divisible by the spacing. -/
theorem C6_tune_invariant (b s : Fin 4) (f cf : Nat)
    (h : setFrequencyModel b s f = Except.ok cf) :
    startBandAt b ≤ cf ∧ cf ≤ endBandAt b ∧
    (cf - startBandAt b) % fmSpaceAt s = 0 ∧
    startBandKHz b ≤ cf * 10 ∧ cf * 10 ≤ endBandKHz b ∧
    (cf * 10 - startBandKHz b) % fmSpaceKHz s = 0 := by
  unfold setFrequencyModel at h
  by_cases hr : f < startBandAt b ∨ endBandAt b < f
  · rw [if_pos hr] at h
    exact absurd h (by simp)
  · rw [if_neg hr] at h
    push_neg at hr
    obtain ⟨hstart, hend⟩ := hr
    have hcf : cf = startBandAt b + frequencyToChannel f b s * fmSpaceAt s := by
      have := h
      simp only [Except.ok.injEq] at this
      omega
    unfold frequencyToChannel at hcf
    have hle : (f - startBandAt b) / fmSpaceAt s * fmSpaceAt s ≤ f - startBandAt b :=
      Nat.div_mul_le_self _ _
    have h1 : startBandAt b ≤ cf := by omega
    have h2 : cf ≤ endBandAt b := by omega
    have h3 : (cf - startBandAt b) % fmSpaceAt s = 0 := by
      rw [hcf, Nat.add_sub_cancel_left, Nat.mul_mod_left]
    refine ⟨h1, h2, h3, ?_, ?_, ?_⟩
    · unfold startBandKHz
      omega
    · unfold endBandKHz
      omega
    · unfold startBandKHz fmSpaceKHz
      have h10 : cf * 10 - startBandAt b * 10 = (cf - startBandAt b) * 10 := by
        omega
      rw [h10, Nat.mul_mod_mul_right, h3, Nat.zero_mul]

/-- C6 witness: tuning band 0, spacing 0 to 10390 (103.9 MHz) succeeds
and the invariant holds at the resulting frequency. -/
theorem C6_tune_invariant_witness :
    startBandAt 0 ≤ 10390 ∧ 10390 ≤ endBandAt 0 ∧
    (10390 - startBandAt 0) % fmSpaceAt 0 = 0 ∧
    startBandKHz 0 ≤ 10390 * 10 ∧ 10390 * 10 ≤ endBandKHz 0 ∧
    (10390 * 10 - startBandKHz 0) % fmSpaceKHz 0 = 0 :=
  C6_tune_invariant 0 0 10390 10390 rfl

/-! ## Seek engine polling -/

/-- Terminal outcomes of the seek engine: clean completion, clean seek
failure (completion flag together with the fail/band-limit flag), and
poll-budget exhaustion with no completion flag ever observed. -/
inductive SeekOutcome where
  | completed : SeekOutcome
  | seekFailed : SeekOutcome
  | seekTimedOut : SeekOutcome
deriving DecidableEq, Repr

/-- Modelled from the spec: the bounded polling loop of the seek engine —
the bodies of `BK108X::seek` and `BK108X::waitAndFinishTune` live in the
`.cpp` translation unit, which is not under `src/`.  `budget` is the
bounded poll count; `status k` is the pair (STC, SF_BL) of the
seek/tune-complete and seek-fail/band-limit flags observed on poll `k`.
When STC is observed set, the outcome is `seekFailed` if SF_BL is also
set and `completed` otherwise; when the budget runs out without STC ever
observed, the outcome is the distinct `seekTimedOut`. -/
def pollSeek : Nat → (Nat → Bool × Bool) → SeekOutcome
  | 0, _ => SeekOutcome.seekTimedOut
  | n + 1, status =>
    if (status 0).1 then
      if (status 0).2 then SeekOutcome.seekFailed else SeekOutcome.completed
    else pollSeek n (fun k => status (k + 1))

/-- C7: when the poll budget is exhausted without the completion flag ever
being observed set, the seek engine ends in the `seekTimedOut` terminal
outcome, which is distinguishable from the clean seek failure outcome
`seekFailed`. -/
theorem C7_seek_timeout (budget : Nat) (status : Nat → Bool × Bool)
    (h : ∀ k, k < budget → (status k).1 = false) :
    pollSeek budget status = SeekOutcome.seekTimedOut ∧
    SeekOutcome.seekTimedOut ≠ SeekOutcome.seekFailed := by
  constructor
  · induction budget generalizing status with
    | zero => rfl
    | succ n ih =>
      have h0 : (status 0).1 = false := h 0 (Nat.succ_pos n)
      simp only [pollSeek, h0, Bool.false_eq_true, if_false]
      exact ih (fun k => status (k + 1)) (fun k hk => h (k + 1) (Nat.succ_lt_succ hk))
  · decide

/-- C7 witness: a two-poll budget against a device that never raises the
completion flag times out, and the outcome differs from `seekFailed`. -/
theorem C7_seek_timeout_witness :
    pollSeek 2 (fun _ => (false, false)) = SeekOutcome.seekTimedOut ∧
    SeekOutcome.seekTimedOut ≠ SeekOutcome.seekFailed :=
  C7_seek_timeout 2 (fun _ => (false, false)) (fun _ _ => rfl)

/-! ## RDS text accumulators -/

/-- Byte size of `char rds_buffer0A[9]` (BK108X.h line 499): 8 text
characters plus the terminator slot. -/
def rds_buffer0A_size : Nat := 9

/-- Byte size of `char rds_buffer2A[65]` (BK108X.h line 497): 64 text
characters plus the terminator slot. -/
def rds_buffer2A_size : Nat := 65

/-- Byte size of `char rds_buffer2B[33]` (BK108X.h line 498): 32 text
characters plus the terminator slot. -/
def rds_buffer2B_size : Nat := 33

/-- An element of the set-within-bounds helper: writing inside the list
keeps the element readable at its own index. -/
theorem list_get_set_self (l : List Nat) (i a : Nat) (h : i < l.length) :
    (l.set i a).get? i = some a := by
  induction l generalizing i with
  | nil => simp at h
  | cons x xs ih =>
    cases i with
    | zero => rfl
    | succ n => exact ih n (by simpa using h)

/-- Modelled from the spec: the 0A decoder step — the body of the RDS
group-0 handler (`getRdsText0A` and its update path) is in the `.cpp`
translation unit, which is not under `src/`.  A 2-bit address selects one
of four 2-character slots of the 8-character buffer, the two characters
are written there, and the decoder itself keeps the terminator slot
(index 8) null. -/
def ingest0A (buf : List Nat) (addr c0 c1 : Nat) : List Nat :=
  ((buf.set (addr % 4 * 2) c0).set (addr % 4 * 2 + 1) c1).set 8 0

/-- Modelled from the spec: the 2A decoder step — the body of the RDS
group-2A handler (`getRdsText2A` and its update path) is not under
`src/`.  A 4-bit address selects one of sixteen 4-character slots of the
64-character buffer; on a text A/B toggle change the buffer is first
reset to blanks; the decoder itself keeps the terminator slot (index 64)
null. -/
def ingest2A (buf : List Nat) (addr c0 c1 c2 c3 : Nat) (toggleChanged : Bool) : List Nat :=
  (((((if toggleChanged then List.replicate 64 32 ++ [0] else buf).set
      (addr % 16 * 4) c0).set (addr % 16 * 4 + 1) c1).set
      (addr % 16 * 4 + 2) c2).set (addr % 16 * 4 + 3) c3).set 64 0

/-- Modelled from the spec: the 2B decoder step — the body of the RDS
group-2B handler (`getRdsText2B` and its update path) is not under
`src/`.  A 4-bit address selects one of sixteen 2-character slots of the
32-character buffer; same toggle-triggered reset policy; the decoder
itself keeps the terminator slot (index 32) null. -/
def ingest2B (buf : List Nat) (addr c0 c1 : Nat) (toggleChanged : Bool) : List Nat :=
  (((if toggleChanged then List.replicate 32 32 ++ [0] else buf).set
      (addr % 16 * 2) c0).set (addr % 16 * 2 + 1) c1).set 32 0

/-- C8: the three RDS text accumulators hold exactly 8, 64 and 32
characters (their backing arrays are 9, 65 and 33 bytes, the extra byte
being the terminator slot), and after every decoder operation each
buffer keeps its size and carries a null terminator within its capacity,
placed by the decoder itself. -/
theorem C8_rds_buffers (b0 b2a b2b : List Nat) (addr c0 c1 c2 c3 : Nat) (t : Bool)
    (h0 : b0.length = rds_buffer0A_size)
    (h2a : b2a.length = rds_buffer2A_size)
    (h2b : b2b.length = rds_buffer2B_size) :
    rds_buffer0A_size = 8 + 1 ∧ rds_buffer2A_size = 64 + 1 ∧
    rds_buffer2B_size = 32 + 1 ∧
    (ingest0A b0 addr c0 c1).length = rds_buffer0A_size ∧
    (ingest0A b0 addr c0 c1).get? 8 = some 0 ∧
    (ingest2A b2a addr c0 c1 c2 c3 t).length = rds_buffer2A_size ∧
    (ingest2A b2a addr c0 c1 c2 c3 t).get? 64 = some 0 ∧
    (ingest2B b2b addr c0 c1 t).length = rds_buffer2B_size ∧
    (ingest2B b2b addr c0 c1 t).get? 32 = some 0 := by
  refine ⟨rfl, rfl, rfl, ?_, ?_, ?_, ?_, ?_, ?_⟩
  · unfold ingest0A
    simp [List.length_set, h0]
  · unfold ingest0A
    apply list_get_set_self
    simp [List.length_set, h0, rds_buffer0A_size]
  · unfold ingest2A
    cases t <;> simp [List.length_set, h2a, rds_buffer2A_size]
  · unfold ingest2A
    apply list_get_set_self
    cases t <;> simp [List.length_set, h2a, rds_buffer2A_size]
  · unfold ingest2B
    cases t <;> simp [List.length_set, h2b, rds_buffer2B_size]
  · unfold ingest2B
    apply list_get_set_self
    cases t <;> simp [List.length_set, h2b, rds_buffer2B_size]

/-- C8 witness: concrete all-zero buffers of the declared sizes, address
0, fragment characters 72 73 74 75, toggle flip observed. -/
theorem C8_rds_buffers_witness :
    rds_buffer0A_size = 8 + 1 ∧ rds_buffer2A_size = 64 + 1 ∧
    rds_buffer2B_size = 32 + 1 ∧
    (ingest0A (List.replicate 9 0) 0 72 73).length = rds_buffer0A_size ∧
    (ingest0A (List.replicate 9 0) 0 72 73).get? 8 = some 0 ∧
    (ingest2A (List.replicate 65 0) 0 72 73 74 75 true).length = rds_buffer2A_size ∧
    (ingest2A (List.replicate 65 0) 0 72 73 74 75 true).get? 64 = some 0 ∧
    (ingest2B (List.replicate 33 0) 0 72 73 true).length = rds_buffer2B_size ∧
    (ingest2B (List.replicate 33 0) 0 72 73 true).get? 32 = some 0 :=
  C8_rds_buffers (List.replicate 9 0) (List.replicate 65 0) (List.replicate 33 0)
    0 72 73 74 75 true (by decide) (by decide) (by decide)

/-! ## RDS 4A date and time -/

/-- The split fields of `bk_rds_date_time.refined` (BK108X.h lines
434–446): local offset magnitude (5 bits), offset sign (1 bit), the two
low minute bits, the four high minute bits, the four low hour bits, the
one high hour bit, and the 17-bit Modified Julian Day code. -/
structure RdsDateTime where
  offset : Nat
  offset_sense : Nat
  minute1 : Nat
  minute2 : Nat
  hour1 : Nat
  hour2 : Nat
  mjd : Nat
deriving DecidableEq, Repr

/-- Modelled from the spec: extraction of the `bk_rds_date_time` fields
from the raw bytes — the decoder body (`getRdsTime`) is in the `.cpp`
translation unit, which is not under `src/`.  The bit positions follow
the declared field order and widths of the struct, allocated least
significant first inside consecutive bytes: byte 0 holds offset (bits
0–4), offset_sense (bit 5) and minute1 (bits 6–7); byte 1 holds minute2
(bits 0–3) and hour1 (bits 4–7); byte 2 holds hour2 (bit 0) and the low
7 bits of mjd, whose next 8 bits are byte 3 and top 2 bits the low bits
of byte 4. -/
def parseRdsDateTime (b0 b1 b2 b3 b4 : Nat) : RdsDateTime :=
  { offset := b0 % 32
    offset_sense := b0 / 32 % 2
    minute1 := b0 / 64 % 4
    minute2 := b1 % 16
    hour1 := b1 / 16 % 16
    hour2 := b2 % 2
    mjd := b2 / 2 % 128 + b3 % 256 * 128 + b4 % 4 * 32768 }

/-- The reassembled hour: high part times 16 plus the 4 low bits. -/
def decodedHour (dt : RdsDateTime) : Nat := dt.hour2 * 16 + dt.hour1

/-- The reassembled minute: the 4 high bits times 4 plus the 2 low bits. -/
def decodedMinute (dt : RdsDateTime) : Nat := dt.minute2 * 4 + dt.minute1

/-- The signed local time offset: the sign bit 1 means negative. -/
def decodedOffset (dt : RdsDateTime) : Int :=
  if dt.offset_sense = 1 then -(dt.offset : Int) else (dt.offset : Int)

/-- C9: on the 4A group bytes encoding MJD 58849, hour 14, minute 30 and
offset +2 (bytes 130, 231, 194, 203, 1 under the declared field layout),
the decoder reassembles the split fields arithmetically and reports
exactly MJD 58849, hour 14, minute 30 and the correctly signed offset +2
— not the raw split pieces, which are hour1 = 14, hour2 = 0, minute1 = 2,
minute2 = 7. -/
theorem C9_datetime_reassembly :
    decodedHour (parseRdsDateTime 130 231 194 203 1) = 14 ∧
    decodedMinute (parseRdsDateTime 130 231 194 203 1) = 30 ∧
    (parseRdsDateTime 130 231 194 203 1).mjd = 58849 ∧
    decodedOffset (parseRdsDateTime 130 231 194 203 1) = 2 ∧
    (parseRdsDateTime 130 231 194 203 1).offset_sense = 0 ∧
    (parseRdsDateTime 130 231 194 203 1).hour1 = 14 ∧
    (parseRdsDateTime 130 231 194 203 1).hour2 = 0 ∧
    (parseRdsDateTime 130 231 194 203 1).minute1 = 2 ∧
    (parseRdsDateTime 130 231 194 203 1).minute2 = 7 := by
  decide
